import Mathlib

/-!
# Verification of the NestJS metrics / Redis health-check service

Shallow embedding of the core of the `devops-nestjs-k8s` repository:

* the metrics registry lifecycle and the `/metrics` controller
  (`src/metrics/metrics.controller.ts`), and
* the dependency health prober backing `GET /redis`.

The only executable source file shipped in the repository is
`metrics.controller.ts`; the Redis prober (`src/redis/`) and the internals
of the metrics library (`prom-client`) are referenced by the controller,
the README and the deployment manifests but their code is not present.
Those parts are modelled from the specification document, and each such
definition is marked `Modelled from the spec:` in its doc comment.
-/

set_option autoImplicit false

namespace DevopsNest

/-! ## Data model: health results and ping outcomes -/

/-- HealthResult record from the spec data model:
`{status: boolean, message: string}`, constructed fresh on every probe. -/
structure HealthResult where
  status : Bool
  message : String
  deriving Repr, DecidableEq

/-- Modelled from the spec: the failure modes of the round-trip command to
the key-value store listed in §4.2 — connection refused, timeout, protocol
error, authentication failure.  The prober source (`src/redis/`) is not in
the repository. -/
inductive PingFailure where
  | connRefused
  | timedOut
  | protocolError
  | authFailure
  deriving Repr, DecidableEq

/-- Human-readable reason attached to each failure mode. -/
def failureReason : PingFailure → String
  | .connRefused => "connection refused"
  | .timedOut => "timeout"
  | .protocolError => "protocol error"
  | .authFailure => "authentication failure"

/-- Modelled from the spec: the outcome of the minimal round-trip command
(e.g. PING) issued by the prober; either a success or one of the captured
failure modes.  Every fault raised by the client is captured into this
type, so the prober itself is a total function of the outcome. -/
inductive PingOutcome where
  | ok
  | fail (f : PingFailure)
  deriving Repr, DecidableEq

/-! ## Dependency health prober -/

/-- Modelled from the spec: `checkHealth()` of the Dependency Health
Prober (`src/redis/`, not shipped in the repository).  On success it
returns `{status: true, message: "<dependency> connection is healthy"}`;
on any failure it returns
`{status: false, message: "<dependency> connection failed: <reason>"}`.
It is a total Lean function: no outcome makes it throw or propagate a
fault, which embeds the spec sentence that all failure modes are captured
into the `status=false` branch. -/
def checkHealth (dep : String) : PingOutcome → HealthResult
  | .ok => { status := true, message := dep ++ " connection is healthy" }
  | .fail f =>
      { status := false
        message := dep ++ " connection failed: " ++ failureReason f }

/-- JSON rendering of a `HealthResult`, as shown by the README validation
command: `{"status":true,"message":"Redis connection is healthy"}`. -/
def jsonOfHealth (h : HealthResult) : String :=
  "\x7b\"status\":" ++ (if h.status then "true" else "false")
    ++ ",\"message\":\"" ++ h.message ++ "\"\x7d"

/-- Modelled from the spec: the `GET /redis` route.  The HTTP layer calls
the prober and always answers with HTTP 200; the health state is the
payload, never the HTTP status code. -/
def redisRoute (out : PingOutcome) : Nat × HealthResult :=
  (200, checkHealth "Redis" out)

/-- A sequence of probe invocations against the store: the prober keeps no
state between calls, so a run is the pointwise image of the per-call
outcomes.  Used to express idempotence across repeated calls. -/
def probeSeq (outs : List PingOutcome) : List HealthResult :=
  outs.map (checkHealth "Redis")

/-! ## Timed probe model -/

/-- Modelled from the spec: the transport-level behaviour of one probe.
`respTime = none` models a store that refuses the connection (the error
is immediate); `respTime = some t` models a store whose PING reply takes
`t` time units.  The probe waits at most the configured `timeout` bound:
the transport cancels the wait at the bound and the prober treats the
cancellation identically to a connection failure. -/
def probeOutcome (timeout : Nat) (respTime : Option Nat) : PingOutcome :=
  match respTime with
  | none => .fail .connRefused
  | some t => if t ≤ timeout then .ok else .fail .timedOut

/-- Time spent inside one probe under the timed model: zero for an
immediate connection refusal, and never more than the configured bound
for a slow or unresponsive store. -/
def probeElapsed (timeout : Nat) (respTime : Option Nat) : Nat :=
  match respTime with
  | none => 0
  | some t => min t timeout

/-- Modelled from the spec: `checkHealth` together with the time it takes,
under the timed transport model.  Returns the `HealthResult` and the
elapsed time of the round trip. -/
def checkHealthTimed (timeout : Nat) (respTime : Option Nat) :
    HealthResult × Nat :=
  (checkHealth "Redis" (probeOutcome timeout respTime),
   probeElapsed timeout respTime)

/-! ## Claims about the prober -/

/-- C1: `checkHealth` never propagates a fault: it is total over every
outcome of the round-trip command, every failure mode (connection
refused, timeout, protocol error, authentication failure) yields
`status = false` with message `"Redis connection failed: <reason>"`, and
the `GET /redis` route always answers HTTP 200. -/
theorem checkHealth_total_and_redis_always_200 :
    (∀ out : PingOutcome, (redisRoute out).1 = 200) ∧
    (∀ f : PingFailure,
      checkHealth "Redis" (PingOutcome.fail f) =
        { status := false
          message := "Redis connection failed: " ++ failureReason f }) := by
  constructor
  · intro out
    rfl
  · intro f
    cases f <;> rfl

/-- C4: against a live, reachable store the prober returns exactly
`{status: true, message: "Redis connection is healthy"}` and the
`GET /redis` route returns HTTP 200 with that JSON body. -/
theorem checkHealth_ok_healthy :
    checkHealth "Redis" PingOutcome.ok =
      { status := true, message := "Redis connection is healthy" } ∧
    (redisRoute PingOutcome.ok).1 = 200 ∧
    jsonOfHealth (redisRoute PingOutcome.ok).2 =
      "\x7b\"status\":true,\"message\":\"Redis connection is healthy\"\x7d" := by
  refine ⟨rfl, rfl, rfl⟩

/-- C8: the prober is stateless across invocations.  Whatever the history
of earlier probes, the result of a call is determined by the current
outcome alone, and a run of calls against an unchanged dependency state
returns the same result every time. -/
theorem checkHealth_stateless :
    (∀ (hist₁ hist₂ : List PingOutcome) (out : PingOutcome),
      (probeSeq (hist₁ ++ [out])).getLast? =
        (probeSeq (hist₂ ++ [out])).getLast?) ∧
    (∀ (n : Nat) (out : PingOutcome),
      probeSeq (List.replicate n out) =
        List.replicate n (checkHealth "Redis" out)) := by
  constructor
  · intro hist₁ hist₂ out
    simp [probeSeq]
  · intro n out
    simp [probeSeq]

/-- C9: under the timed transport model, a probe always terminates within
the configured timeout bound — against a refused connection it returns a
`status = false` result immediately, and for every store behaviour the
elapsed time never exceeds the bound. -/
theorem checkHealth_bounded_timeout :
    (∀ timeout : Nat,
      ((checkHealthTimed timeout none).1.status = false ∧
        (checkHealthTimed timeout none).2 = 0)) ∧
    (∀ (timeout : Nat) (respTime : Option Nat),
      (checkHealthTimed timeout respTime).2 ≤ timeout) := by
  constructor
  · intro timeout
    exact ⟨rfl, rfl⟩
  · intro timeout respTime
    cases respTime with
    | none => exact Nat.zero_le _
    | some t =>
        simp [checkHealthTimed, probeElapsed]

/-! ## Data model: metrics and the registry -/

/-- Metric kinds from the spec data model: counter, gauge, histogram. -/
inductive MetricKind where
  | counter
  | gauge
  | histogram
  deriving Repr, DecidableEq

/-- A registered metric producer: name, kind and HELP text.  The value is
not stored here — built-in process metrics are sourced from the operating
system at serialization time (modelled by the `env` argument of
`serializeLines`). -/
structure Metric where
  name : String
  kind : MetricKind
  help : String
  deriving Repr, DecidableEq

/-- Modelled from the spec: registration of a metric in the registry
(the registry implementation lives in the `prom-client` library, not in
the repository).  Metric names are unique; re-registering an existing
name with the same kind is a no-op, and a conflicting kind is a fatal
configuration error. -/
def registerMetric (reg : List Metric) (m : Metric) : Except String (List Metric) :=
  match reg.find? (fun x => x.name == m.name) with
  | none => .ok (reg ++ [m])
  | some m0 =>
      if m0.kind = m.kind then .ok reg
      else .error ("conflicting kind for metric " ++ m.name)

/-- Register a batch of metrics left to right, stopping at the first
fatal configuration error. -/
def registerAll (reg : List Metric) : List Metric → Except String (List Metric)
  | [] => .ok reg
  | m :: ms =>
      match registerMetric reg m with
      | .ok reg2 => registerAll reg2 ms
      | .error e => .error e

/-- Built-in process metric: total CPU seconds. -/
def cpuMetric : Metric :=
  { name := "process_cpu_seconds_total", kind := .counter
    help := "Total user and system CPU time spent in seconds." }

/-- Built-in process metric: resident memory bytes. -/
def memMetric : Metric :=
  { name := "process_resident_memory_bytes", kind := .gauge
    help := "Resident memory size in bytes." }

/-- Built-in process metric: process start time. -/
def startTimeMetric : Metric :=
  { name := "process_start_time_seconds", kind := .gauge
    help := "Start time of the process since unix epoch in seconds." }

/-- Built-in process metric: open file descriptors. -/
def openFdsMetric : Metric :=
  { name := "process_open_fds", kind := .gauge
    help := "Number of open file descriptors." }

/-- Built-in runtime metric: event-loop lag. -/
def eventLoopLagMetric : Metric :=
  { name := "nodejs_eventloop_lag_seconds", kind := .gauge
    help := "Lag of event loop in seconds." }

/-- Modelled from the spec: the set of built-in process/runtime metrics
registered by `collectDefaultMetrics({ register })` in
`metrics.controller.ts` — CPU seconds, resident memory bytes, process
start time, open file descriptors, event-loop lag (§4.1 and end-to-end
scenario 3). -/
def defaultMetrics : List Metric :=
  [cpuMetric, memMetric, startTimeMetric, openFdsMetric, eventLoopLagMetric]

/-- Modelled from the spec: `initialize()` — registration of the built-in
metrics into a fresh registry at process startup. -/
def initializeRegistry : Except String (List Metric) :=
  registerAll [] defaultMetrics

/-! ## Exposition-format rendering -/

/-- The decimal digit character for `n < 10`. -/
def digitChar (n : Nat) : Char := Char.ofNat (48 + n)

/-- Decimal rendering of a natural number, fuelled to keep the recursion
structural; `fuel ≥ n + 1` is always enough. -/
def natToChars : Nat → Nat → List Char
  | 0, _ => []
  | fuel + 1, n =>
      if n < 10 then [digitChar n]
      else natToChars fuel (n / 10) ++ [digitChar (n % 10)]

/-- Decimal rendering of `n` with sufficient fuel. -/
def natChars (n : Nat) : List Char := natToChars (n + 1) n

/-- Characters allowed in a metric name: alphanumerics and underscore. -/
def isNameChar (c : Char) : Bool := c.isAlphanum || c == '_'

/-- A character that may appear inside one exposition line (no newline). -/
def isLineChar (c : Char) : Bool := !(c == '\x0A')

/-- The fixed lead of a HELP comment line. -/
def helpTag : List Char := ['#', ' ', 'H', 'E', 'L', 'P', ' ']

/-- The fixed lead of a TYPE comment line. -/
def typeTag : List Char := ['#', ' ', 'T', 'Y', 'P', 'E', ' ']

/-- Checker for a data line of the exposition format: a nonempty metric
name, one space, and a nonempty decimal value. -/
def checkSampleChars (cs : List Char) : Bool :=
  (!(cs.takeWhile isNameChar).isEmpty) &&
    match cs.dropWhile isNameChar with
    | c :: v => c == ' ' && (!v.isEmpty) && v.all Char.isDigit
    | [] => false

/-- Checker for one well-formed exposition line: it contains no embedded
newline and is either a HELP comment, a TYPE comment, or a data line. -/
def expositionLine (cs : List Char) : Bool :=
  cs.all isLineChar &&
    (List.isPrefixOf helpTag cs || List.isPrefixOf typeTag cs ||
      checkSampleChars cs)

/-- Textual name of a metric kind as it appears on TYPE lines. -/
def kindName : MetricKind → String
  | .counter => "counter"
  | .gauge => "gauge"
  | .histogram => "histogram"

/-- The HELP annotation line of a metric. -/
def helpLine (m : Metric) : List Char :=
  helpTag ++ m.name.data ++ ' ' :: m.help.data

/-- The TYPE annotation line of a metric. -/
def typeLine (m : Metric) : List Char :=
  typeTag ++ m.name.data ++ ' ' :: (kindName m.kind).data

/-- One data line: metric name, a space, and the decimal value. -/
def dataLine (name : String) (v : Nat) : List Char :=
  name.data ++ ' ' :: natChars v

/-- The three exposition lines produced for one metric whose current OS
sample is `v`. -/
def renderMetric (m : Metric) (v : Nat) : List (List Char) :=
  [helpLine m, typeLine m, dataLine m.name v]

/-- Modelled from the spec: `serialize()` of the Metrics Registry (the
implementation is `register.metrics()` inside the `prom-client` library,
not in the repository).  `env` models the per-metric OS queries at
snapshot time: `env name = none` is a transient failure of that metric's
OS query, and the metric is omitted from the snapshot; serialization
itself is a total function — no failure propagates out of it. -/
def serializeLines (reg : List Metric) (env : String → Option Nat) :
    List (List Char) :=
  reg.flatMap fun m =>
    match env m.name with
    | none => []
    | some v => renderMetric m v

/-- The serialized snapshot as one string: the exposition lines joined by
newlines. -/
def serialize (reg : List Metric) (env : String → Option Nat) : String :=
  String.intercalate "\x0A" ((serializeLines reg env).map String.mk)

/-- Modelled from the spec: the `register.contentType` constant of the
metrics library, per the interface table of §6. -/
def contentType : String := "text/plain; version=0.0.4"

/-! ## HTTP layer embedding -/

/-- An HTTP response under construction: Express starts from status 200
with no headers and no body written. -/
structure HttpResponse where
  statusCode : Nat := 200
  headers : List (String × String) := []
  body : Option String := none
  deriving Repr, DecidableEq

/-- Shallow embedding of `MetricsController.getMetrics`
(`metrics.controller.ts`, lines 10–14): it sets the Content-Type header
to `register.contentType` and ends the response with the registry
snapshot `register.metrics()`.  The registry is only read, never
modified, so it is threaded through unchanged. -/
def getMetrics (reg : List Metric) (env : String → Option Nat)
    (res : HttpResponse) : List Metric × HttpResponse :=
  let res1 :=
    { res with headers := res.headers ++ [("Content-Type", contentType)] }
  (reg, { res1 with body := some (serialize reg env) })

/-- Process-wide state: the metrics registry created at startup. -/
structure ProcState where
  registry : List Metric
  deriving Repr, DecidableEq

/-- Modelled from the spec: process startup.  The module-level
`const register = new Registry()` and `collectDefaultMetrics({register})`
of `metrics.controller.ts` run exactly once, when the module is loaded,
before the HTTP layer accepts connections; a fatal configuration error
at registration keeps the process from starting (`none`). -/
def startup : Option ProcState :=
  match initializeRegistry with
  | .ok reg => some { registry := reg }
  | .error _ => none

/-- An incoming HTTP request to one of the two routes.  A metrics request
carries the OS-sample environment observed at that instant and the fresh
response object handed to the controller. -/
inductive Request where
  | metricsReq (env : String → Option Nat) (res : HttpResponse)
  | redisReq (out : PingOutcome)

/-- Dispatch of one request by the HTTP layer: `GET /metrics` goes to the
controller's `getMetrics`, `GET /redis` to the prober, serialized as the
JSON payload with HTTP status from `redisRoute`. -/
def handle (s : ProcState) (req : Request) : ProcState × HttpResponse :=
  match req with
  | .metricsReq env res =>
      let pair := getMetrics s.registry env res
      ({ registry := pair.1 }, pair.2)
  | .redisReq out =>
      (s,
       { statusCode := (redisRoute out).1
         headers := [("Content-Type", "application/json")]
         body := some (jsonOfHealth (redisRoute out).2) })

/-- Run of the process over a sequence of requests, threading the
process state. -/
def run (s : ProcState) : List Request → ProcState
  | [] => s
  | req :: reqs => run (handle s req).1 reqs

/-! ## Well-formedness of the serialized snapshot -/

/-- A metric whose name is nonempty and made of name characters, and
whose HELP text fits on one line. -/
def validMetric (m : Metric) : Bool :=
  (!m.name.data.isEmpty) && m.name.data.all isNameChar &&
    m.help.data.all isLineChar

theorem digitChar_isDigit (n : Nat) (h : n < 10) :
    (digitChar n).isDigit = true := by
  interval_cases n <;> decide

theorem natToChars_ne_nil_all_digits :
    ∀ fuel n : Nat, n < fuel →
      natToChars fuel n ≠ [] ∧ (natToChars fuel n).all Char.isDigit = true := by
  intro fuel
  induction fuel with
  | zero => exact fun n h => absurd h (Nat.not_lt_zero n)
  | succ fuel ih =>
      intro n h
      by_cases h10 : n < 10
      · refine ⟨?_, ?_⟩
        · simp [natToChars, h10]
        · simp [natToChars, h10, digitChar_isDigit n h10]
      · have hdiv : n / 10 < fuel := by
          have h1 : n / 10 < n := Nat.div_lt_self (by omega) (by omega)
          omega
        obtain ⟨ih1, ih2⟩ := ih (n / 10) hdiv
        refine ⟨?_, ?_⟩
        · simp [natToChars, h10]
        · simp [natToChars, h10, ih2,
            digitChar_isDigit (n % 10) (Nat.mod_lt n (by omega))]

theorem natChars_ne_nil (n : Nat) : natChars n ≠ [] :=
  (natToChars_ne_nil_all_digits (n + 1) n (Nat.lt_succ_self n)).1

theorem natChars_all_digits (n : Nat) : (natChars n).all Char.isDigit = true :=
  (natToChars_ne_nil_all_digits (n + 1) n (Nat.lt_succ_self n)).2

theorem isPrefixOf_self_append (a b : List Char) :
    List.isPrefixOf a (a ++ b) = true := by
  induction a with
  | nil => simp [List.isPrefixOf]
  | cons c cs ih => simp [List.isPrefixOf, ih]

theorem takeWhile_append_stop {α : Type} (p : α → Bool) :
    ∀ (xs : List α) (y : α) (ys : List α), xs.all p = true → p y = false →
      (xs ++ y :: ys).takeWhile p = xs ∧ (xs ++ y :: ys).dropWhile p = y :: ys := by
  intro xs
  induction xs with
  | nil =>
      intro y ys _ hy
      simp [List.takeWhile, List.dropWhile, hy]
  | cons a as ih =>
      intro y ys hall hy
      rw [List.all_cons, Bool.and_eq_true] at hall
      obtain ⟨ha, has⟩ := hall
      obtain ⟨ht, hd⟩ := ih y ys has hy
      refine ⟨?_, ?_⟩
      · simp [List.takeWhile_cons, ha, ht]
      · simp [List.dropWhile_cons, ha, hd]

theorem checkSampleChars_valid (name v : List Char)
    (hne : name.isEmpty = false) (hname : name.all isNameChar = true)
    (hv : v ≠ []) (hvd : v.all Char.isDigit = true) :
    checkSampleChars (name ++ ' ' :: v) = true := by
  obtain ⟨ht, hd⟩ :=
    takeWhile_append_stop isNameChar name ' ' v hname (by decide)
  simp [checkSampleChars, ht, hd, hne, hv, hvd]

theorem isLineChar_of_isNameChar (c : Char) (h : isNameChar c = true) :
    isLineChar c = true := by
  cases hc : c == '\x0A' with
  | false => simp [isLineChar, hc]
  | true =>
      have hce : c = '\x0A' := by
        exact eq_of_beq hc
      subst hce
      exact absurd h (by decide)

theorem isLineChar_of_isDigit (c : Char) (h : c.isDigit = true) :
    isLineChar c = true := by
  cases hc : c == '\x0A' with
  | false => simp [isLineChar, hc]
  | true =>
      have hce : c = '\x0A' := by
        exact eq_of_beq hc
      subst hce
      exact absurd h (by decide)

theorem all_isLineChar_of_isNameChar (cs : List Char)
    (h : cs.all isNameChar = true) : cs.all isLineChar = true := by
  rw [List.all_eq_true] at h ⊢
  exact fun x hx => isLineChar_of_isNameChar x (h x hx)

theorem all_isLineChar_of_isDigit (cs : List Char)
    (h : cs.all Char.isDigit = true) : cs.all isLineChar = true := by
  rw [List.all_eq_true] at h ⊢
  exact fun x hx => isLineChar_of_isDigit x (h x hx)

theorem validMetric_parts (m : Metric) (hm : validMetric m = true) :
    m.name.data.isEmpty = false ∧ m.name.data.all isNameChar = true ∧
      m.help.data.all isLineChar = true := by
  rw [validMetric, Bool.and_eq_true, Bool.and_eq_true] at hm
  obtain ⟨⟨hne, hname⟩, hh⟩ := hm
  exact ⟨by simpa using hne, hname, hh⟩

theorem expositionLine_helpLine (m : Metric) (hm : validMetric m = true) :
    expositionLine (helpLine m) = true := by
  obtain ⟨hne, hname, hh⟩ := validMetric_parts m hm
  simp [expositionLine, helpLine, isPrefixOf_self_append,
    all_isLineChar_of_isNameChar m.name.data hname, hh]
  decide

theorem expositionLine_typeLine (m : Metric) (hm : validMetric m = true) :
    expositionLine (typeLine m) = true := by
  obtain ⟨hne, hname, hh⟩ := validMetric_parts m hm
  have hkind : (kindName m.kind).data.all isLineChar = true := by
    cases m.kind <;> decide
  simp [expositionLine, typeLine, isPrefixOf_self_append,
    all_isLineChar_of_isNameChar m.name.data hname, hkind]
  decide

theorem expositionLine_dataLine (m : Metric) (v : Nat)
    (hm : validMetric m = true) :
    expositionLine (dataLine m.name v) = true := by
  obtain ⟨hne, hname, hh⟩ := validMetric_parts m hm
  have hchk := checkSampleChars_valid m.name.data (natChars v)
    hne hname (natChars_ne_nil v) (natChars_all_digits v)
  simp [dataLine] at hchk ⊢
  simp [expositionLine, dataLine, hchk,
    all_isLineChar_of_isNameChar m.name.data hname,
    all_isLineChar_of_isDigit (natChars v) (natChars_all_digits v)]
  decide

theorem serializeLines_nil (env : String → Option Nat) :
    serializeLines [] env = [] := rfl

theorem serializeLines_cons (m : Metric) (ms : List Metric)
    (env : String → Option Nat) :
    serializeLines (m :: ms) env =
      (match env m.name with
        | none => []
        | some v => renderMetric m v) ++ serializeLines ms env := by
  simp [serializeLines]

theorem serializeLines_wellFormed (reg : List Metric)
    (env : String → Option Nat) (hreg : reg.all validMetric = true) :
    (serializeLines reg env).all expositionLine = true := by
  induction reg with
  | nil => rfl
  | cons m ms ih =>
      rw [List.all_cons, Bool.and_eq_true] at hreg
      obtain ⟨hm, hms⟩ := hreg
      have hrest := ih hms
      rw [serializeLines_cons]
      cases henv : env m.name with
      | none => simpa using hrest
      | some v =>
          rw [List.all_eq_true] at hrest
          simp [renderMetric]
          exact ⟨expositionLine_helpLine m hm, expositionLine_typeLine m hm,
            expositionLine_dataLine m v hm, hrest⟩

theorem serializeLines_filter_isSome (reg : List Metric)
    (env : String → Option Nat) :
    serializeLines reg env =
      serializeLines (reg.filter (fun m => (env m.name).isSome)) env := by
  induction reg with
  | nil => rfl
  | cons m ms ih =>
      cases henv : env m.name with
      | none =>
          rw [serializeLines_cons, henv, List.filter_cons]
          simpa [henv] using ih
      | some v =>
          rw [serializeLines_cons, henv, List.filter_cons]
          simp [henv, serializeLines_cons, ih]

/-! ## Claims about the registry, the controller and the endpoint -/

/-- C2: on every invocation of `GET /metrics` the controller sets the
Content-Type header to exactly `text/plain; version=0.0.4`, and the body
it writes is the newline-join of a list of lines each of which passes the
exposition-format line checker. -/
theorem metrics_response_contentType_and_wellformed :
    contentType = "text/plain; version=0.0.4" ∧
    ∀ (env : String → Option Nat) (res : HttpResponse),
      (getMetrics defaultMetrics env res).2.headers =
        res.headers ++ [("Content-Type", "text/plain; version=0.0.4")] ∧
      (getMetrics defaultMetrics env res).2.body =
        some (String.intercalate "\x0A"
          ((serializeLines defaultMetrics env).map String.mk)) ∧
      (serializeLines defaultMetrics env).all expositionLine = true := by
  refine ⟨rfl, fun env res => ⟨rfl, rfl, ?_⟩⟩
  exact serializeLines_wellFormed defaultMetrics env (by decide)

/-- C3: serialization is a total function of the registry and the OS
sample environment (no failure propagates out of it): under any pattern
of transient per-metric OS query failures, the snapshot equals the
snapshot of just the metrics whose query succeeded — each failed metric
is omitted on its own — and the result is still a well-formed list of
exposition lines, joined into the response body. -/
theorem serialize_per_metric_omission_wellformed
    (env : String → Option Nat) :
    serializeLines defaultMetrics env =
      serializeLines (defaultMetrics.filter (fun m => (env m.name).isSome)) env ∧
    (serializeLines defaultMetrics env).all expositionLine = true ∧
    serialize defaultMetrics env =
      String.intercalate "\x0A"
        ((serializeLines defaultMetrics env).map String.mk) :=
  ⟨serializeLines_filter_isSome defaultMetrics env,
   serializeLines_wellFormed defaultMetrics env (by decide), rfl⟩

/-- C5: the registry is created exactly once, at startup, holding the
built-in metrics; no request handler ever changes it, so over any run of
the process every `/metrics` serialization reads the registry instance
built at startup. -/
theorem registry_singleton_lifecycle :
    startup = some { registry := defaultMetrics } ∧
    (∀ (s : ProcState) (req : Request), (handle s req).1.registry = s.registry) ∧
    (∀ (reqs : List Request) (s : ProcState),
      (run s reqs).registry = s.registry) := by
  refine ⟨rfl, ?_, ?_⟩
  · intro s req
    cases req <;> rfl
  · intro reqs
    induction reqs with
    | nil => intro s; rfl
    | cons req reqs ih =>
        intro s
        rw [run, ih]
        cases req <;> rfl

/-- C6: on a freshly started process (registry = the built-in metrics),
whenever the OS samples for CPU seconds, resident memory and process
start time are available, the serialized body contains the data line of
each of those three metrics, with a numeric value that is ≥ 0. -/
theorem fresh_metrics_contains_process_lines
    (env : String → Option Nat) (c r s : Nat)
    (hc : env "process_cpu_seconds_total" = some c)
    (hr : env "process_resident_memory_bytes" = some r)
    (hs : env "process_start_time_seconds" = some s) :
    (dataLine "process_cpu_seconds_total" c ∈ serializeLines defaultMetrics env
      ∧ 0 ≤ c) ∧
    (dataLine "process_resident_memory_bytes" r ∈ serializeLines defaultMetrics env
      ∧ 0 ≤ r) ∧
    (dataLine "process_start_time_seconds" s ∈ serializeLines defaultMetrics env
      ∧ 0 ≤ s) := by
  refine ⟨⟨?_, Nat.zero_le c⟩, ⟨?_, Nat.zero_le r⟩, ⟨?_, Nat.zero_le s⟩⟩ <;>
    simp [defaultMetrics, serializeLines_cons, cpuMetric, memMetric,
      startTimeMetric, hc, hr, hs, renderMetric]

/-- Witness for C6: with every OS sample reading 0, the three process
metric data lines are present in the snapshot. -/
theorem fresh_metrics_contains_process_lines_witness :
    (dataLine "process_cpu_seconds_total" 0 ∈
        serializeLines defaultMetrics (fun _ => some 0) ∧ 0 ≤ 0) ∧
    (dataLine "process_resident_memory_bytes" 0 ∈
        serializeLines defaultMetrics (fun _ => some 0) ∧ 0 ≤ 0) ∧
    (dataLine "process_start_time_seconds" 0 ∈
        serializeLines defaultMetrics (fun _ => some 0) ∧ 0 ≤ 0) :=
  fresh_metrics_contains_process_lines (fun _ => some 0) 0 0 0 rfl rfl rfl

/-- C7: registration is idempotent — re-registering a name already
present with the same kind returns the registry unchanged, while a
conflicting kind yields the fatal configuration error; and no request
handler registers anything, so the conflict error can only arise at
startup, never at request time. -/
theorem register_idempotent_conflict_error
    (reg : List Metric) (m m0 : Metric)
    (hfind : reg.find? (fun x => x.name == m.name) = some m0) :
    (m0.kind = m.kind → registerMetric reg m = .ok reg) ∧
    (m0.kind ≠ m.kind →
      registerMetric reg m = .error ("conflicting kind for metric " ++ m.name)) ∧
    (∀ (s : ProcState) (req : Request), (handle s req).1.registry = s.registry) := by
  refine ⟨?_, ?_, ?_⟩
  · intro hk
    simp [registerMetric, hfind, hk]
  · intro hk
    simp [registerMetric, hfind, hk]
  · intro s req
    cases req <;> rfl

/-- Witness for C7: re-registering the CPU counter with the same kind
leaves the startup registry unchanged, and re-registering its name as a
gauge yields the fatal configuration error. -/
theorem register_idempotent_conflict_error_witness :
    registerMetric defaultMetrics cpuMetric = .ok defaultMetrics ∧
    registerMetric defaultMetrics
        { name := "process_cpu_seconds_total", kind := .gauge, help := "" } =
      .error ("conflicting kind for metric " ++ "process_cpu_seconds_total") := by
  constructor
  · exact (register_idempotent_conflict_error defaultMetrics cpuMetric cpuMetric
      (by decide)).1 rfl
  · exact (register_idempotent_conflict_error defaultMetrics
      { name := "process_cpu_seconds_total", kind := .gauge, help := "" }
      cpuMetric (by decide)).2.1 (by decide)

/-- C10: serving `/metrics` writes as body exactly the serialized
registry snapshot, its only other effect on the response is appending
the Content-Type header with the registry's content type (the status
code is untouched), and the registry is identical before and after the
call. -/
theorem getMetrics_frame (reg : List Metric) (env : String → Option Nat)
    (res : HttpResponse) :
    (getMetrics reg env res).1 = reg ∧
    (getMetrics reg env res).2.body = some (serialize reg env) ∧
    (getMetrics reg env res).2.headers =
      res.headers ++ [("Content-Type", contentType)] ∧
    (getMetrics reg env res).2.statusCode = res.statusCode :=
  ⟨rfl, rfl, rfl, rfl⟩

end DevopsNest
